import Mathlib

/-
Verification of the address-translation / COW subsystem of pa3.c
(TLB lookup/insert, page allocation/deallocation, page-fault handling,
process switch with copy-on-write fork).

Modelling conventions (shallow embedding of src/pa3.c):
* Machine words (`unsigned int`) are Nat; the only place where unsigned
  wrap-around is reachable is the unguarded `mapcounts[pte->pfn]--` in
  handle_page_fault, which is modelled with an explicit `% 2^32`.
* Pointers are Option; dereferencing a NULL pointer (the C code does this
  in free_page and handle_page_fault when the inner directory is absent)
  is modelled as the operation returning `none` (undefined behavior).
* `malloc` returns indeterminate memory.  The embedding threads the
  malloc'd objects' contents as explicit parameters: alloc_page takes
  the contents of the directory it may lazily create, and the fork path
  of switch_process takes a `MallocEnv` (the contents of the malloc'd
  child directories and of the child process struct's outer-pointer
  array).  This matters because the source reads uninitialized fields:
  the fork loop never assigns the child PTE's `writable` bit, never
  initializes the child's outer slots where the parent has no
  directory, and alloc_page only assigns `writable` for write requests.
* `free(pd)` in free_page is modelled as clearing the outer-table slot
  (the C code frees the directory without clearing the outer pointer).
* The constants below come from the framework header vm.h, which is part
  of the repository's fixed scaffolding and not under src/; the standard
  values of the assignment are used.  None of the verified properties
  depend on the particular sizes.
-/

/-- Number of PTEs per page / inner directory and number of slots of the
outer page table (`NR_PTES_PER_PAGE` in vm.h, `1 << PTES_PER_PAGE_SHIFT`
with shift 4). -/
def NR_PTES_PER_PAGE : Nat := 16

/-- Number of physical page frames (`NR_PAGEFRAMES` in vm.h). -/
def NR_PAGEFRAMES : Nat := 128

/-- Number of virtual page numbers addressable through the two-level
table: outer slots times PTEs per directory. -/
def NR_VPNS : Nat := NR_PTES_PER_PAGE * NR_PTES_PER_PAGE

/-- Access-mode flag for read (`RW_READ` in vm.h). -/
def RW_READ : Nat := 1

/-- Access-mode flag for write (`RW_WRITE` in vm.h). -/
def RW_WRITE : Nat := 2

/-- `(unsigned int)(-1)`, the failure sentinel returned by alloc_page. -/
def UINT_MAX : Nat := 4294967295

/-- Modulus of the C type `unsigned int`. -/
def UINT_MOD : Nat := 4294967296

/-- A page-table entry: `struct pte` of vm.h.  The C field `private`
(the COW marker) is named `priv` here because `private` is a Lean
keyword. -/
structure Pte where
  valid : Bool
  writable : Bool
  priv : Bool
  pfn : Nat
deriving DecidableEq, Repr

/-- The all-zero PTE (invalid, non-writable, non-private, pfn 0) — the
state free_page writes into a cleared slot. -/
def Pte.zero : Pte := ⟨false, false, false, 0⟩

/-- An inner page-table directory: `struct pte_directory`, owning
`NR_PTES_PER_PAGE` PTEs.  Modelled as a total function; the code only
ever indexes it below `NR_PTES_PER_PAGE`. -/
structure PteDirectory where
  ptes : Nat → Pte

/-- A directory whose PTEs are all zeroed — the state free_page leaves
behind in every slot it clears.  Used only as a concrete test input
(a present directory with no valid entries, and one possible content of
malloc'd memory in witnesses); it is NOT used to model malloc itself. -/
def zeroDirectory : PteDirectory := ⟨fun _ => Pte.zero⟩

/-- The outer page table: `struct pagetable`, an array of
`NR_PTES_PER_PAGE` nullable pointers to inner directories. -/
structure Pagetable where
  outer_ptes : Nat → Option PteDirectory

/-- The page table with every outer slot NULL (zero-initialized process). -/
def emptyPagetable : Pagetable := ⟨fun _ => none⟩

/-- One TLB slot: `struct tlb_entry`. -/
structure TlbEntry where
  valid : Bool
  vpn : Nat
  pfn : Nat
deriving DecidableEq, Repr

/-- A process: `struct process` (pid plus its owned page table; the
ready-queue linkage is represented by membership in the ready list). -/
structure Process where
  pid : Nat
  pagetable : Pagetable

/-- The global mutable state of pa3.c: the frame reference counts
`mapcounts[]`, the TLB array `tlb[]`, the page-table base register
`ptbr` (NULL-able), the running process `current` and the ready queue
`processes`.  In the running simulator `ptbr` points at
`current->pagetable`; the operations are embedded exactly on the
variables the C functions touch. -/
structure MachineState where
  mapcounts : Nat → Nat
  tlb : List TlbEntry
  ptbr : Option Pagetable
  current : Process
  processes : List Process

/-- Update one PTE of a directory. -/
def PteDirectory.set (pd : PteDirectory) (j : Nat) (p : Pte) : PteDirectory :=
  ⟨fun k => if k = j then p else pd.ptes k⟩

/-- Update one outer slot of a page table. -/
def Pagetable.set (pt : Pagetable) (i : Nat) (d : Option PteDirectory) : Pagetable :=
  ⟨fun k => if k = i then d else pt.outer_ptes k⟩

/-- `mapcounts[p]++`. -/
def mapInc (mc : Nat → Nat) (p : Nat) : Nat → Nat :=
  fun i => if i = p then mc i + 1 else mc i

/-- The unguarded `mapcounts[p]--` of handle_page_fault: unsigned
decrement, wrapping modulo 2^32 when the count is 0. -/
def mapDecWrap (mc : Nat → Nat) (p : Nat) : Nat → Nat :=
  fun i => if i = p then (mc i + UINT_MAX) % UINT_MOD else mc i

/-- lookup_tlb (pa3.c:67-80): scan the TLB slots in index order and
return the pfn of the first valid entry whose vpn matches. -/
def lookup_tlb : List TlbEntry → Nat → Option Nat
  | [], _ => none
  | t :: ts, vpn =>
    if t.valid && t.vpn == vpn then some t.pfn else lookup_tlb ts vpn

/-- insert_tlb (pa3.c:91-103): install the mapping into the first
invalid slot; silently a no-op when every slot is valid. -/
def insert_tlb : List TlbEntry → Nat → Nat → List TlbEntry
  | [], _, _ => []
  | t :: ts, vpn, pfn =>
    if t.valid then t :: insert_tlb ts vpn pfn
    else { valid := true, vpn := vpn, pfn := pfn } :: ts

/-- The TLB-invalidation loop of free_page (pa3.c:187-197): every valid
entry whose vpn matches is zeroed and marked invalid. -/
def tlb_clear_vpn (l : List TlbEntry) (vpn : Nat) : List TlbEntry :=
  l.map (fun t =>
    if t.valid && t.vpn == vpn then { valid := false, vpn := 0, pfn := 0 } else t)

/-- The TLB-invalidation loop of switch_process (pa3.c:332-341 and
366-375): every valid entry is zeroed and marked invalid. -/
def tlb_invalidate_all (l : List TlbEntry) : List TlbEntry :=
  l.map (fun t => if t.valid then { valid := false, vpn := 0, pfn := 0 } else t)

/-- The frame-search loop of alloc_page / handle_page_fault: the first
frame index below `NR_PAGEFRAMES` whose reference count is 0. -/
def findFreeFrame (mc : Nat → Nat) : Option Nat :=
  (List.range NR_PAGEFRAMES).find? (fun i => mc i == 0)

/-- alloc_page (pa3.c:122-161).  Returns the C function's value
(`unsigned int`, `UINT_MAX` encodes the `-1` sentinel) together with the
resulting state.  `g` is the (indeterminate) content of the directory
malloc returns when the inner directory is lazily created (pa3.c:138);
it is consulted only in that case.  Faithful to the source: the PTE is
marked valid (with `pfn = -1`) before the frame search, and is left
that way when no free frame exists; `writable` is only assigned for
`rw >= RW_WRITE`, so for a read-only request it keeps whatever the slot
held — the old slot's bit, or uninitialized malloc memory for a fresh
directory. -/
def alloc_page (g : PteDirectory) (st : MachineState) (vpn rw : Nat) :
    Nat × MachineState :=
  match st.ptbr with
  | none => (UINT_MAX, st)
  | some pt =>
    let pd_index := vpn / NR_PTES_PER_PAGE
    let pte_index := vpn % NR_PTES_PER_PAGE
    let pd := (pt.outer_ptes pd_index).getD g
    let old := pd.ptes pte_index
    let pte1 : Pte :=
      { valid := true, priv := false,
        writable := if RW_WRITE ≤ rw then true else old.writable,
        pfn := UINT_MAX }
    match findFreeFrame st.mapcounts with
    | none =>
      (UINT_MAX,
       { st with ptbr := some (pt.set pd_index (some (pd.set pte_index pte1))) })
    | some f =>
      (f,
       { st with
         mapcounts := mapInc st.mapcounts f,
         ptbr := some (pt.set pd_index (some (pd.set pte_index { pte1 with pfn := f }))) })

/-- free_page (pa3.c:173-217).  `none` models the undefined behavior of
the source: it dereferences `ptbr` and the inner directory without any
NULL check.  Otherwise: clear matching TLB entries, decrement the bound
frame's count and zero the PTE (only when the count was positive — note
the source performs this even for an invalid PTE, using its stale pfn),
and destroy the directory when it no longer holds a valid entry. -/
def free_page (st : MachineState) (vpn : Nat) : Option MachineState :=
  match st.ptbr with
  | none => none
  | some pt =>
    let pd_index := vpn / NR_PTES_PER_PAGE
    let pte_index := vpn % NR_PTES_PER_PAGE
    match pt.outer_ptes pd_index with
    | none => none
    | some pd =>
      let pte := pd.ptes pte_index
      let tlb1 := tlb_clear_vpn st.tlb vpn
      let mc1 := if 0 < st.mapcounts pte.pfn then
          (fun i => if i = pte.pfn then st.mapcounts i - 1 else st.mapcounts i)
        else st.mapcounts
      let pd1 := if 0 < st.mapcounts pte.pfn then pd.set pte_index Pte.zero else pd
      let anyValid := (List.range NR_PTES_PER_PAGE).any (fun j => (pd1.ptes j).valid)
      some { st with
        tlb := tlb1,
        mapcounts := mc1,
        ptbr := some (pt.set pd_index (if anyValid then some pd1 else none)) }

/-- handle_page_fault (pa3.c:236-263).  `none` models the undefined
behavior of dereferencing the absent directory (reachable only in the
`rw == RW_WRITE` branch).  Faithful to the source: on a private (COW)
PTE it first sets `writable` and decrements the old frame's count
(unsigned, wrapping), then rebinds the PTE to the lowest zero-count
frame; when no frame is free it returns false with those side effects
already applied. -/
def handle_page_fault (st : MachineState) (vpn rw : Nat) :
    Option (Bool × MachineState) :=
  if rw = RW_WRITE then
    match st.ptbr with
    | none => none
    | some pt =>
      let pd_index := vpn / NR_PTES_PER_PAGE
      let pte_index := vpn % NR_PTES_PER_PAGE
      match pt.outer_ptes pd_index with
      | none => none
      | some pd =>
        let pte := pd.ptes pte_index
        if pte.priv then
          let pte1 := { pte with writable := true }
          let mc1 := mapDecWrap st.mapcounts pte.pfn
          match findFreeFrame mc1 with
          | some f =>
            some (true,
              { st with
                mapcounts := mapInc mc1 f,
                ptbr := some (pt.set pd_index (some (pd.set pte_index { pte1 with pfn := f }))) })
          | none =>
            some (false,
              { st with
                mapcounts := mc1,
                ptbr := some (pt.set pd_index (some (pd.set pte_index pte1))) })
        else some (false, st)
  else some (false, st)

/-- The in-place transformation switch_process applies to the outgoing
page table (both branches, pa3.c:317-321 and 352-355): every valid
writable PTE becomes `private = 1, writable = false`. -/
def dup_pte_parent (p : Pte) : Pte :=
  if p.writable then { p with priv := true, writable := false } else p

/-- The child PTE the fork loop builds (pa3.c:313-321) in the slot that
previously held the uninitialized value `q` (the malloc'd directory's
memory): pfn and private copied, valid set; a writable parent forces
private on the child.  The source never assigns the child's `writable`
field, so it stays at the indeterminate `q.writable`; an invalid parent
PTE is skipped (`continue`), leaving the whole slot at `q`. -/
def dup_pte_child (q p : Pte) : Pte :=
  if p.valid then
    { valid := true, writable := q.writable,
      priv := if p.writable then true else p.priv, pfn := p.pfn }
  else q

/-- One directory after the outgoing-side COW marking. -/
def dup_dir_parent (pd : PteDirectory) : PteDirectory :=
  ⟨fun j => if j < NR_PTES_PER_PAGE ∧ (pd.ptes j).valid = true
            then dup_pte_parent (pd.ptes j) else pd.ptes j⟩

/-- The child copy of one directory, built in the malloc'd memory `q`
(slots the loop does not assign keep their indeterminate content). -/
def dup_dir_child (q pd : PteDirectory) : PteDirectory :=
  ⟨fun j => if j < NR_PTES_PER_PAGE then dup_pte_child (q.ptes j) (pd.ptes j)
            else q.ptes j⟩

/-- The reference-count increments of the fork loop over one directory:
`mapcounts[pte->pfn]++` for every valid PTE. -/
def dir_bump_counts (pd : PteDirectory) (mc : Nat → Nat) : Nat → Nat :=
  (List.range NR_PTES_PER_PAGE).foldl
    (fun m j => if (pd.ptes j).valid then mapInc m (pd.ptes j).pfn else m) mc

/-- The outgoing page table after COW marking (applied by both branches
of switch_process). -/
def cow_protect (pt : Pagetable) : Pagetable :=
  ⟨fun i => if i < NR_PTES_PER_PAGE
            then (pt.outer_ptes i).map dup_dir_parent else pt.outer_ptes i⟩

/-- The indeterminate contents of the memory malloc returns to the fork
path of switch_process (pa3.c:298,306): `proc_outer` is the
uninitialized outer-pointer array of the malloc'd child process struct
(read back wherever the loop skips an absent parent directory), and
`dirs i` is the uninitialized content of the directory malloc'd for
outer slot `i`. -/
structure MallocEnv where
  proc_outer : Nat → Option PteDirectory
  dirs : Nat → PteDirectory

/-- The forked child's page table built from the malloc'd memory `g`:
for each parent-present outer slot a duplicated directory with child
COW flags (in the malloc'd directory's memory); where the parent has no
directory the loop does nothing, so the child's slot keeps the
uninitialized pointer of the process struct. -/
def fork_child_pagetable (g : MallocEnv) (pt : Pagetable) : Pagetable :=
  ⟨fun i => if i < NR_PTES_PER_PAGE then
      match pt.outer_ptes i with
      | some pd => some (dup_dir_child (g.dirs i) pd)
      | none => g.proc_outer i
    else g.proc_outer i⟩

/-- All reference-count increments of the fork loop. -/
def fork_bump_counts (pt : Pagetable) (mc : Nat → Nat) : Nat → Nat :=
  (List.range NR_PTES_PER_PAGE).foldl
    (fun m i =>
      match pt.outer_ptes i with
      | some pd => dir_bump_counts pd m
      | none => m) mc

/-- switch_process (pa3.c:284-377).  If a process with the pid sits in
the ready queue: COW-protect the outgoing table, enqueue the outgoing
process at the head (`list_add`), unlink the target, rebind `ptbr`,
invalidate the TLB.  Otherwise fork: build the child table (in the
malloc'd memory `g`, whose uninitialized contents the loop partially
overwrites) with symmetric COW marking, bump every duplicated frame's
count, enqueue the old current, make the child current, rebind `ptbr`,
invalidate the TLB.  `g` is only consulted on the fork path. -/
def switch_process (g : MallocEnv) (st : MachineState) (pid : Nat) : MachineState :=
  match st.processes.find? (fun p => p.pid == pid) with
  | some a =>
    { st with
      tlb := tlb_invalidate_all st.tlb,
      ptbr := some a.pagetable,
      current := a,
      processes :=
        { st.current with pagetable := cow_protect st.current.pagetable } ::
          st.processes.eraseP (fun p => p.pid == pid) }
  | none =>
    { mapcounts := fork_bump_counts st.current.pagetable st.mapcounts,
      tlb := tlb_invalidate_all st.tlb,
      ptbr := some (fork_child_pagetable g st.current.pagetable),
      current := { pid := pid, pagetable := fork_child_pagetable g st.current.pagetable },
      processes :=
        { st.current with pagetable := cow_protect st.current.pagetable } ::
          st.processes }

/-- The PTE a page table holds for a vpn (none when the inner directory
is absent). -/
def pte_at (pt : Pagetable) (vpn : Nat) : Option Pte :=
  (pt.outer_ptes (vpn / NR_PTES_PER_PAGE)).map
    (fun pd => pd.ptes (vpn % NR_PTES_PER_PAGE))

/-- The PTE the active (ptbr) page table holds for a vpn. -/
def state_pte_at (st : MachineState) (vpn : Nat) : Option Pte :=
  st.ptbr.bind (fun pt => pte_at pt vpn)

/-- The TLB invariant of the spec: no vpn is validly cached twice. -/
def tlb_at_most_one (l : List TlbEntry) : Prop :=
  List.Pairwise
    (fun a b => a.valid = true → b.valid = true → a.vpn ≠ b.vpn) l

/-- A bound page table with no mappings and all frames free. -/
def emptyBoundState : MachineState :=
  { mapcounts := fun _ => 0, tlb := [], ptbr := some emptyPagetable,
    current := ⟨1, emptyPagetable⟩, processes := [] }

/-- A state with no bound page table (`ptbr == NULL`). -/
def noPtbrState : MachineState :=
  { mapcounts := fun _ => 0, tlb := [], ptbr := none,
    current := ⟨1, emptyPagetable⟩, processes := [] }

/-- A bound empty page table while every frame is referenced. -/
def fullFramesState : MachineState :=
  { mapcounts := fun _ => 1, tlb := [], ptbr := some emptyPagetable,
    current := ⟨1, emptyPagetable⟩, processes := [] }

/-- One valid writable PTE at vpn 0 bound to frame 0. -/
def w1dir : PteDirectory :=
  ⟨fun j => if j = 0 then ⟨true, true, false, 0⟩ else Pte.zero⟩

/-- Page table holding only `w1dir` at outer slot 0. -/
def w1pt : Pagetable := ⟨fun i => if i = 0 then some w1dir else none⟩

/-- A consistent one-process state: one valid writable mapping vpn 0 →
frame 0 (reference count 1), every other frame free. -/
def w1st : MachineState :=
  { mapcounts := fun f => if f = 0 then 1 else 0, tlb := [], ptbr := some w1pt,
    current := ⟨1, w1pt⟩, processes := [] }

/-- One possible content of a word of uninitialized malloc memory,
read back as a `struct pte`: the bit the C code interprets as
`writable` happens to be set. -/
def garbagePte : Pte := ⟨false, true, false, 0⟩

/-- One possible content of a malloc'd pte_directory: every slot reads
back as `garbagePte`. -/
def garbageDir : PteDirectory := ⟨fun _ => garbagePte⟩

/-- One possible malloc outcome for the fork path: the child process
struct's outer pointers read back as NULL, and every malloc'd child
directory holds `garbageDir`'s contents. -/
def garbageEnv : MallocEnv := ⟨fun _ => none, fun _ => garbageDir⟩

/-- The benign malloc outcome (all-zero memory), used as a concrete
input by witnesses. -/
def zeroEnv : MallocEnv := ⟨fun _ => none, fun _ => zeroDirectory⟩

/-- A COW (private, read-only) PTE at vpn 0 bound to frame 1. -/
def c2cexPt : Pagetable :=
  ⟨fun i => if i = 0 then
      some ⟨fun j => if j = 0 then ⟨true, false, true, 1⟩ else Pte.zero⟩
    else none⟩

/-- Frame 1 has reference count 1 (this PTE only) and frame 0 is free. -/
def c2cexSt : MachineState :=
  { mapcounts := fun f => if f = 1 then 1 else 0, tlb := [],
    ptbr := some c2cexPt, current := ⟨1, c2cexPt⟩, processes := [] }

/-- A COW PTE at vpn 0 bound to frame 0. -/
def cowFrame0Pt : Pagetable :=
  ⟨fun i => if i = 0 then
      some ⟨fun j => if j = 0 then ⟨true, false, true, 0⟩ else Pte.zero⟩
    else none⟩

/-- Frame 0 shared by two mappings, every other frame free. -/
def c2witSt : MachineState :=
  { mapcounts := fun f => if f = 0 then 2 else 0, tlb := [],
    ptbr := some cowFrame0Pt, current := ⟨1, cowFrame0Pt⟩, processes := [] }

/-- Frame 0 shared by two mappings and every other frame also in use
(no free frame anywhere). -/
def c5st : MachineState :=
  { mapcounts := fun f => if f = 0 then 2 else 1, tlb := [],
    ptbr := some cowFrame0Pt, current := ⟨1, cowFrame0Pt⟩, processes := [] }

/-- A present inner directory whose PTEs are all invalid (zeroed). -/
def c7pt : Pagetable := ⟨fun i => if i = 0 then some zeroDirectory else none⟩

/-- Frame 0 is referenced by someone else; vpn 0's PTE is invalid. -/
def c7st : MachineState :=
  { mapcounts := fun f => if f = 0 then 1 else 0, tlb := [],
    ptbr := some c7pt, current := ⟨1, c7pt⟩, processes := [] }

/-- One valid writable PTE at vpn 0 bound to frame 3. -/
def c6dir : PteDirectory :=
  ⟨fun j => if j = 0 then ⟨true, true, false, 3⟩ else Pte.zero⟩

/-- Page table holding only `c6dir` at outer slot 0. -/
def c6pt : Pagetable := ⟨fun i => if i = 0 then some c6dir else none⟩

/-- vpn 0 mapped to frame 3 with count 1, and the translation cached in
the TLB. -/
def c6st : MachineState :=
  { mapcounts := fun f => if f = 3 then 1 else 0, tlb := [⟨true, 0, 3⟩],
    ptbr := some c6pt, current := ⟨1, c6pt⟩, processes := [] }

/-- A TLB lookup misses iff no valid entry carries the vpn. -/
theorem lookup_tlb_eq_none_iff (l : List TlbEntry) (vpn : Nat) :
    lookup_tlb l vpn = none ↔ ∀ t ∈ l, (t.valid && t.vpn == vpn) = false := by
  induction l with
  | nil => simp [lookup_tlb]
  | cons t ts ih =>
    have e : lookup_tlb (t :: ts) vpn
        = if t.valid && t.vpn == vpn then some t.pfn else lookup_tlb ts vpn := rfl
    rw [e]
    cases h : (t.valid && t.vpn == vpn) with
    | false =>
      rw [if_neg (by simp [h]), List.forall_mem_cons]
      constructor
      · intro hn; exact ⟨h, ih.mp hn⟩
      · rintro ⟨-, hts⟩; exact ih.mpr hts
    | true =>
      rw [if_pos (by simp [h])]
      constructor
      · intro hn; simp at hn
      · intro hall
        have ht := hall t (List.mem_cons_self _ _)
        rw [h] at ht; simp at ht

/-- After the full invalidation loop, every lookup misses. -/
theorem lookup_tlb_invalidate_all (l : List TlbEntry) (vpn : Nat) :
    lookup_tlb (tlb_invalidate_all l) vpn = none := by
  apply (lookup_tlb_eq_none_iff _ _).mpr
  intro t ht
  rcases List.mem_map.mp ht with ⟨t', _, rfl⟩
  by_cases h : t'.valid = true <;> simp [h]

/-- After free_page's invalidation loop, the freed vpn misses. -/
theorem lookup_tlb_clear_vpn (l : List TlbEntry) (vpn : Nat) :
    lookup_tlb (tlb_clear_vpn l vpn) vpn = none := by
  apply (lookup_tlb_eq_none_iff _ _).mpr
  intro t ht
  rcases List.mem_map.mp ht with ⟨t', _, rfl⟩
  by_cases h : (t'.valid && t'.vpn == vpn) = true
  · simp [h]
  · have hf : (t'.valid && t'.vpn == vpn) = false := by simpa using h
    simp [hf]

/-- Entries of the TLB after an insertion are old entries or the new one. -/
theorem mem_insert_tlb {l : List TlbEntry} {vpn pfn : Nat} :
    ∀ b ∈ insert_tlb l vpn pfn, b ∈ l ∨ b = ⟨true, vpn, pfn⟩ := by
  induction l with
  | nil => intro b hb; simp [insert_tlb] at hb
  | cons t ts ih =>
    intro b hb
    by_cases h : t.valid = true
    · simp only [insert_tlb, if_pos h, List.mem_cons] at hb
      rcases hb with rfl | hb
      · exact Or.inl (List.mem_cons_self _ _)
      · rcases ih b hb with hbl | rfl
        · exact Or.inl (List.mem_cons_of_mem _ hbl)
        · exact Or.inr rfl
    · simp only [insert_tlb, if_neg h, List.mem_cons] at hb
      rcases hb with rfl | hb
      · exact Or.inr rfl
      · exact Or.inl (List.mem_cons_of_mem _ hb)

/-- find? on an ascending integer range returns the least satisfying
index. -/
theorem find?_range'_spec (p : Nat → Bool) :
    ∀ (n s f : Nat), (List.range' s n).find? p = some f →
      p f = true ∧ s ≤ f ∧ f < s + n ∧ ∀ i, s ≤ i → i < f → p i = false := by
  intro n
  induction n with
  | zero => intro s f h; simp at h
  | succ n ih =>
    intro s f h
    rw [List.range'_succ] at h
    by_cases hp : p s = true
    · rw [List.find?_cons_of_pos _ hp] at h
      obtain rfl : s = f := by injection h
      exact ⟨hp, Nat.le_refl _, by omega, fun i h1 h2 => by omega⟩
    · rw [List.find?_cons_of_neg _ hp] at h
      obtain ⟨h1, h2, h3, h4⟩ := ih (s + 1) f h
      refine ⟨h1, by omega, by omega, ?_⟩
      intro i hi1 hi2
      rcases Nat.eq_or_lt_of_le hi1 with rfl | hlt
      · simpa using hp
      · exact h4 i (by omega) hi2

/-- The frame search returns the least frame with reference count 0. -/
theorem findFreeFrame_spec {mc : Nat → Nat} {f : Nat}
    (h : findFreeFrame mc = some f) :
    f < NR_PAGEFRAMES ∧ mc f = 0 ∧ ∀ i < f, mc i ≠ 0 := by
  unfold findFreeFrame at h
  rw [List.range_eq_range'] at h
  obtain ⟨h1, _, h3, h4⟩ := find?_range'_spec _ _ _ _ h
  refine ⟨by omega, by simpa using h1, ?_⟩
  intro i hi
  have := h4 i (Nat.zero_le _) hi
  simpa using this

/-- C4: when no frame has reference count zero the call returns the
`-1` sentinel without touching the reference counts — but, contrary to
the claim, it leaves a partial PTE behind: the entry at the requested
vpn is left valid (writable, pfn = 0xFFFFFFFF).  When no page table
base is bound the call returns the sentinel with the state unchanged.
This theorem evaluates the code at the failing input; it holds whatever
the malloc'd directory `g` contains, because every asserted field is
explicitly written by the source on this path. -/
theorem C4_alloc_failure_leaves_valid_pte :
    ∀ g : PteDirectory,
      alloc_page g noPtbrState 0 RW_WRITE = (UINT_MAX, noPtbrState) ∧
      (alloc_page g fullFramesState 0 RW_WRITE).1 = UINT_MAX ∧
      (alloc_page g fullFramesState 0 RW_WRITE).2.mapcounts = fullFramesState.mapcounts ∧
      state_pte_at (alloc_page g fullFramesState 0 RW_WRITE).2 0
        = some { valid := true, writable := true, priv := false, pfn := UINT_MAX } := by
  intro g
  refine ⟨rfl, rfl, rfl, rfl⟩

/-- C5: a write fault on a valid COW (private) PTE that cannot be
resolved (no free frame after detaching) makes handle_page_fault return
false — but, contrary to the claim, the failing call has already
mutated the state: the shared frame's reference count is decremented
from 2 to 1 and the PTE is left writable while still bound to the
shared frame.  This theorem evaluates the code at the failing input. -/
theorem C5_failing_fault_mutates_state :
    (handle_page_fault c5st 0 RW_WRITE).map Prod.fst = some false ∧
    c5st.mapcounts 0 = 2 ∧
    (handle_page_fault c5st 0 RW_WRITE).map (fun r => r.2.mapcounts 0) = some 1 ∧
    (handle_page_fault c5st 0 RW_WRITE).map (fun r => state_pte_at r.2 0)
      = some (some ⟨true, true, true, 0⟩) := by
  refine ⟨by decide, by decide, by decide, by decide⟩

/-- C7: contrary to the claim, neither free_page nor handle_page_fault
reports an absent inner directory through its return value: both
dereference the NULL directory pointer (the embedding's `none` result,
undefined behavior in the C source); moreover free_page on an invalid
(zeroed) PTE silently decrements `mapcounts[0]`, corrupting the shared
counter of frame 0 instead of reporting the error.  This theorem
evaluates the code at the failing inputs. -/
theorem C7_absent_structures_not_reported :
    free_page emptyBoundState 0 = none ∧
    handle_page_fault emptyBoundState 0 RW_WRITE = none ∧
    c7st.mapcounts 0 = 1 ∧
    state_pte_at c7st 0 = some Pte.zero ∧
    (free_page c7st 0).map (fun s => s.mapcounts 0) = some 0 := by
  refine ⟨rfl, rfl, by decide, by decide, by decide⟩

/-- C8: after every switch_process call — on both the switch-to-existing
and the fork transition, and whatever the malloc'd memory contains — the
whole TLB is invalidated, so no lookup for any vpn returns a cached
translation. -/
theorem C8_switch_invalidates_tlb (g : MallocEnv) (st : MachineState) (pid vpn : Nat) :
    lookup_tlb (switch_process g st pid).tlb vpn = none := by
  unfold switch_process
  cases h : st.processes.find? (fun p => p.pid == pid) with
  | none => exact lookup_tlb_invalidate_all _ _
  | some a => exact lookup_tlb_invalidate_all _ _

/-- C9 counterexample: inserting a vpn that is already validly cached
does produce a second valid entry for that vpn — insert_tlb only looks
for the first invalid slot and never checks for duplicates, so the
at-most-one-entry-per-vpn invariant is not preserved. -/
theorem C9_counterexample :
    tlb_at_most_one [⟨true, 5, 1⟩, ⟨false, 0, 0⟩] ∧
    insert_tlb [⟨true, 5, 1⟩, ⟨false, 0, 0⟩] 5 2 = [⟨true, 5, 1⟩, ⟨true, 5, 2⟩] ∧
    ¬ tlb_at_most_one (insert_tlb [⟨true, 5, 1⟩, ⟨false, 0, 0⟩] 5 2) := by
  refine ⟨?_, by decide, ?_⟩
  · unfold tlb_at_most_one
    decide
  · unfold tlb_at_most_one
    decide

/-- C9 (amended): lookup_tlb is read-only, and insert_tlb preserves the
at-most-one-valid-entry-per-vpn invariant whenever the inserted vpn is
not currently validly cached (the framework's insert-after-miss call
pattern); inserting an already-cached vpn does create a duplicate. -/
theorem C9_insert_preserves_at_most_one :
    ∀ (l : List TlbEntry) (vpn pfn : Nat),
      tlb_at_most_one l → lookup_tlb l vpn = none →
      tlb_at_most_one (insert_tlb l vpn pfn) := by
  intro l vpn pfn
  induction l with
  | nil =>
    intro _ _
    unfold tlb_at_most_one
    simp [insert_tlb]
  | cons t ts ih =>
    intro hinv hmiss
    unfold tlb_at_most_one at hinv ⊢
    rw [List.pairwise_cons] at hinv
    obtain ⟨h1, h2⟩ := hinv
    have hmiss' := (lookup_tlb_eq_none_iff _ _).mp hmiss
    rw [List.forall_mem_cons] at hmiss'
    obtain ⟨hmt, hmts⟩ := hmiss'
    have hmiss_ts : lookup_tlb ts vpn = none :=
      (lookup_tlb_eq_none_iff _ _).mpr hmts
    have e : insert_tlb (t :: ts) vpn pfn
        = if t.valid then t :: insert_tlb ts vpn pfn
          else { valid := true, vpn := vpn, pfn := pfn } :: ts := rfl
    rw [e]
    by_cases hv : t.valid = true
    · rw [if_pos hv]
      apply List.Pairwise.cons
      · intro b hb
        rcases mem_insert_tlb b hb with hbl | rfl
        · exact h1 b hbl
        · intro _ _ he
          rw [hv] at hmt
          simp at hmt
          exact hmt he
      · exact ih h2 hmiss_ts
    · rw [if_neg hv]
      apply List.Pairwise.cons
      · intro b hb _ hbv
        have hbne := hmts b hb
        rw [hbv] at hbne
        simp at hbne
        exact fun he => hbne he.symm
      · exact h2

/-- C9 witness: a concrete TLB with one free slot, an uncached vpn, and
the preserved invariant after the insertion. -/
theorem C9_witness :
    tlb_at_most_one [(⟨false, 0, 0⟩ : TlbEntry)] ∧
    lookup_tlb [(⟨false, 0, 0⟩ : TlbEntry)] 7 = none ∧
    tlb_at_most_one (insert_tlb [(⟨false, 0, 0⟩ : TlbEntry)] 7 3) :=
  ⟨by unfold tlb_at_most_one; decide, rfl,
   C9_insert_preserves_at_most_one _ 7 3 (by unfold tlb_at_most_one; decide) rfl⟩

/-- C2 counterexample: a write fault on a valid COW PTE whose frame has
reference count 1 does NOT keep the same PFN when a lower-numbered
frame is free: here the PTE is bound to frame 1 (count 1), frame 0 is
free, and the handler rebinds the PTE to frame 0. -/
theorem C2_counterexample :
    c2cexSt.mapcounts 1 = 1 ∧
    state_pte_at c2cexSt 0 = some ⟨true, false, true, 1⟩ ∧
    (handle_page_fault c2cexSt 0 RW_WRITE).map Prod.fst = some true ∧
    (handle_page_fault c2cexSt 0 RW_WRITE).map (fun r => state_pte_at r.2 0)
      = some (some ⟨true, true, true, 0⟩) := by
  refine ⟨by decide, by decide, by decide, by decide⟩

/-- C3 counterexample: the installed PTE is not writable-exactly-when
requested in general: allocating vpn 0 read-write and then re-allocating
the same vpn read-only succeeds (returns frame 1, a free frame existed)
yet leaves the PTE writable, because alloc_page never clears the
`writable` bit for read-only requests.  The malloc'd memory passed here
is all-zero, so the surviving writable bit provably comes from the
first call's explicit assignment, not from garbage (the first call
writes every field of slot 0, and the second call finds the directory
present, so neither result depends on the malloc contents). -/
theorem C3_counterexample :
    RW_READ < RW_WRITE ∧
    (alloc_page zeroDirectory
      (alloc_page zeroDirectory emptyBoundState 0 RW_WRITE).2 0 RW_READ).1 = 1 ∧
    (1 : Nat) ≠ UINT_MAX ∧
    (state_pte_at (alloc_page zeroDirectory
        (alloc_page zeroDirectory emptyBoundState 0 RW_WRITE).2 0 RW_READ).2 0).map
      Pte.writable = some true := by
  refine ⟨by decide, by decide, by decide, by decide⟩

/-- C3 (amended): for every alloc_page(vpn, rw) call that succeeds
while at least one frame has reference count zero, the returned PFN is
the smallest frame index whose count was zero, that count is
incremented to 1 and no other count changes, the installed PTE is
valid with private cleared, and the inner directory exists afterwards
(created lazily if absent).  The writable bit is only guaranteed to be
"exactly when write access was requested" when the effective prior slot
— the existing slot when the directory is present, or the
corresponding slot of the malloc'd (uninitialized) memory `g` when the
directory is lazily created — is not marked writable: the code sets
writable for write requests but never clears it for read-only
requests, so the bit is otherwise inherited from the old slot (see the
counterexample) or from indeterminate malloc memory. -/
theorem C3_alloc_page_lowest_free (g : PteDirectory) (st : MachineState)
    (pt : Pagetable) (vpn rw f : Nat)
    (hpt : st.ptbr = some pt)
    (_hvpn : vpn < NR_VPNS)
    (hw : (((pt.outer_ptes (vpn / NR_PTES_PER_PAGE)).getD g).ptes
      (vpn % NR_PTES_PER_PAGE)).writable = false)
    (hfree : findFreeFrame st.mapcounts = some f) :
    ∃ st', alloc_page g st vpn rw = (f, st') ∧
      st.mapcounts f = 0 ∧
      (∀ i, i < f → st.mapcounts i ≠ 0) ∧
      st'.mapcounts f = 1 ∧
      (∀ q, q ≠ f → st'.mapcounts q = st.mapcounts q) ∧
      state_pte_at st' vpn
        = some { valid := true, writable := if RW_WRITE ≤ rw then true else false,
                 priv := false, pfn := f } ∧
      (∀ pt', st'.ptbr = some pt' →
        (pt'.outer_ptes (vpn / NR_PTES_PER_PAGE)).isSome = true) := by
  obtain ⟨hfb, hf0, hleast⟩ := findFreeFrame_spec hfree
  unfold alloc_page
  rw [hpt, hfree]
  refine ⟨_, rfl, hf0, hleast, ?_, ?_, ?_, ?_⟩
  · simp [mapInc, hf0]
  · intro q hq
    simp [mapInc, hq]
  · simp [state_pte_at, pte_at, Pagetable.set, PteDirectory.set, hw]
  · intro pt' hpt'
    injection hpt' with h
    subst h
    simp [Pagetable.set]

/-- C3 witness: allocating vpn 0 read-only in the empty bound state,
with all-zero malloc'd memory for the lazily created directory, returns
frame 0 with count 1 and a valid, non-writable, non-private PTE. -/
theorem C3_witness :
    findFreeFrame emptyBoundState.mapcounts = some 0 ∧
    (((emptyPagetable.outer_ptes 0).getD zeroDirectory).ptes 0).writable = false ∧
    (∃ st', alloc_page zeroDirectory emptyBoundState 0 RW_READ = (0, st') ∧
      st'.mapcounts 0 = 1 ∧
      state_pte_at st' 0
        = some { valid := true, writable := if RW_WRITE ≤ RW_READ then true else false,
                 priv := false, pfn := 0 }) := by
  obtain ⟨st', h1, _h2, _h3, h4, _h5, h6, _h7⟩ :=
    C3_alloc_page_lowest_free zeroDirectory emptyBoundState emptyPagetable 0 RW_READ 0
      rfl (by decide) (by decide) (by decide)
  exact ⟨by decide, by decide, st', h1, h4, h6⟩

/-- C6: freeing a currently valid mapping decrements the bound frame's
reference count by exactly one (leaving every other count unchanged, so
the frame stays allocated to remaining sharers until the count reaches
zero), removes the vpn from the TLB (a subsequent lookup misses),
zeroes the PTE, and destroys the owning inner directory exactly when it
no longer holds any valid entry. -/
theorem C6_free_page_contract (st : MachineState) (pt : Pagetable)
    (pd : PteDirectory) (vpn : Nat) (pte : Pte)
    (hpt : st.ptbr = some pt)
    (hpd : pt.outer_ptes (vpn / NR_PTES_PER_PAGE) = some pd)
    (hpte : pd.ptes (vpn % NR_PTES_PER_PAGE) = pte)
    (_hval : pte.valid = true)
    (hc : 0 < st.mapcounts pte.pfn) :
    ∃ st', free_page st vpn = some st' ∧
      st'.mapcounts pte.pfn = st.mapcounts pte.pfn - 1 ∧
      (∀ g, g ≠ pte.pfn → st'.mapcounts g = st.mapcounts g) ∧
      lookup_tlb st'.tlb vpn = none ∧
      ((∃ j, j < NR_PTES_PER_PAGE ∧ j ≠ vpn % NR_PTES_PER_PAGE ∧ (pd.ptes j).valid = true) →
        state_pte_at st' vpn = some Pte.zero) ∧
      ((∀ j, j < NR_PTES_PER_PAGE → j ≠ vpn % NR_PTES_PER_PAGE → (pd.ptes j).valid = false) →
        ∃ pt', st'.ptbr = some pt' ∧ pt'.outer_ptes (vpn / NR_PTES_PER_PAGE) = none) := by
  unfold free_page
  simp only [hpt, hpd, hpte, if_pos hc]
  refine ⟨_, rfl, ?_, ?_, ?_, ?_, ?_⟩
  · simp
  · intro g hg
    simp [hg]
  · exact lookup_tlb_clear_vpn _ _
  · rintro ⟨j, hj, hjne, hjv⟩
    simp [state_pte_at, pte_at, Pagetable.set, PteDirectory.set]
    exact ⟨j, hj, by simp [hjne, hjv]⟩
  · intro hall
    have hany : ((List.range NR_PTES_PER_PAGE).any
        fun k => ((pd.set (vpn % NR_PTES_PER_PAGE) Pte.zero).ptes k).valid) = false := by
      rw [← Bool.not_eq_true]
      intro hb
      rw [List.any_eq_true] at hb
      obtain ⟨j, hjm, hjv⟩ := hb
      rw [List.mem_range] at hjm
      by_cases hje : j = vpn % NR_PTES_PER_PAGE
      · rw [hje] at hjv
        simp [PteDirectory.set, Pte.zero] at hjv
      · simp only [PteDirectory.set, if_neg hje] at hjv
        exact absurd hjv (by simp [hall j hjm hje])
    refine ⟨pt.set (vpn / NR_PTES_PER_PAGE) none, ?_, ?_⟩
    · simp [hany]
    · simp [Pagetable.set]

/-- C6 witness: freeing vpn 0 (mapped alone to frame 3, cached in the
TLB) drops frame 3's count to 0, the lookup misses afterwards, and the
now-empty inner directory is destroyed. -/
theorem C6_witness :
    (0 < c6st.mapcounts 3) ∧
    (∃ st', free_page c6st 0 = some st' ∧
      st'.mapcounts 3 = 0 ∧
      lookup_tlb st'.tlb 0 = none ∧
      ∃ pt', st'.ptbr = some pt' ∧ pt'.outer_ptes 0 = none) := by
  obtain ⟨st', h1, h2, _h3, h4, _h5, h6⟩ :=
    C6_free_page_contract c6st c6pt c6dir 0 ⟨true, true, false, 3⟩ rfl rfl rfl rfl
      (by decide)
  refine ⟨by decide, st', h1, ?_, h4, ?_⟩
  · rw [h2]
    decide
  · exact h6 (by decide)

/-- C2 (amended): a resolvable write fault on a valid COW-marked
(private) PTE rebinds the PTE to the lowest-numbered frame that is free
after detaching from the old frame, sets writable (the COW marker stays
set), and gives the chosen frame reference count 1.  When the old count
was 1 the PTE keeps the same PFN exactly when no lower-numbered frame
is free (the net count returning to 1); when the old count was greater
than 1 the PTE moves to a genuinely new frame and the old frame's count
drops by exactly 1.  Every other frame count, every other mapping of the
active table, and every other process is left unchanged. -/
theorem C2_cow_write_fault (st : MachineState) (pt : Pagetable) (pd : PteDirectory)
    (vpn c f : Nat) (pte : Pte)
    (hpt : st.ptbr = some pt)
    (hpd : pt.outer_ptes (vpn / NR_PTES_PER_PAGE) = some pd)
    (hpte : pd.ptes (vpn % NR_PTES_PER_PAGE) = pte)
    (hval : pte.valid = true)
    (hpriv : pte.priv = true)
    (hc : st.mapcounts pte.pfn = c)
    (hc1 : 1 ≤ c)
    (hcw : c < UINT_MOD)
    (hfree : findFreeFrame (mapDecWrap st.mapcounts pte.pfn) = some f) :
    ∃ st', handle_page_fault st vpn RW_WRITE = some (true, st') ∧
      state_pte_at st' vpn
        = some { valid := true, writable := true, priv := true, pfn := f } ∧
      st'.mapcounts f = 1 ∧
      (f ≠ pte.pfn → st'.mapcounts pte.pfn = c - 1) ∧
      (∀ g, g ≠ f → g ≠ pte.pfn → st'.mapcounts g = st.mapcounts g) ∧
      (c = 1 → (f = pte.pfn ↔ ∀ i, i < pte.pfn → st.mapcounts i ≠ 0)) ∧
      (2 ≤ c → f ≠ pte.pfn) ∧
      st'.current = st.current ∧ st'.processes = st.processes ∧ st'.tlb = st.tlb ∧
      (∀ w, w ≠ vpn → state_pte_at st' w = state_pte_at st w) := by
  obtain ⟨hfb, hm0, hleast⟩ := findFreeFrame_spec hfree
  have hdec : mapDecWrap st.mapcounts pte.pfn pte.pfn = c - 1 := by
    simp only [mapDecWrap, if_true]
    rw [hc]
    simp only [UINT_MAX, UINT_MOD]
    simp only [UINT_MOD] at hcw
    omega
  have hdec_other : ∀ g, g ≠ pte.pfn →
      mapDecWrap st.mapcounts pte.pfn g = st.mapcounts g := by
    intro g hg
    simp [mapDecWrap, hg]
  unfold handle_page_fault
  rw [if_pos rfl]
  simp only [hpt, hpd, hpte, if_pos hpriv]
  rw [hfree]
  refine ⟨_, rfl, ?_, ?_, ?_, ?_, ?_, ?_, rfl, rfl, rfl, ?_⟩
  · simp [state_pte_at, pte_at, Pagetable.set, PteDirectory.set, hval, hpriv]
  · simp [mapInc, hm0]
  · intro h
    simp [mapInc, Ne.symm h, hdec]
  · intro g hgf hgp
    simp [mapInc, hgf, hdec_other g hgp]
  · intro hc1'
    constructor
    · intro hfe i hi
      have h1 := hleast i (by omega)
      rw [hdec_other i (by omega)] at h1
      exact h1
    · intro hall
      by_contra hne
      have hpf0 : mapDecWrap st.mapcounts pte.pfn pte.pfn = 0 := by
        rw [hdec, hc1']
      rcases Nat.lt_or_ge f pte.pfn with hlt | hge
      · have hne0 := hall f hlt
        rw [hdec_other f hne] at hm0
        exact hne0 hm0
      · have hlt2 : pte.pfn < f := by omega
        exact hleast pte.pfn hlt2 hpf0
  · intro h2c he
    rw [he, hdec] at hm0
    omega
  · intro w hw
    by_cases hdi : w / NR_PTES_PER_PAGE = vpn / NR_PTES_PER_PAGE
    · have hmi : w % NR_PTES_PER_PAGE ≠ vpn % NR_PTES_PER_PAGE := by
        simp only [NR_PTES_PER_PAGE] at hdi ⊢
        intro he
        apply hw
        omega
      simp [state_pte_at, hpt, pte_at, Pagetable.set, PteDirectory.set, hdi, hmi, hpd]
    · simp [state_pte_at, hpt, pte_at, Pagetable.set, hdi]

/-- C2 witness: vpn 0 is COW-bound to frame 0 with count 2; the write
fault succeeds, moves the PTE to frame 1 (count 1), and leaves frame 0
with count 1. -/
theorem C2_witness :
    c2witSt.mapcounts 0 = 2 ∧
    findFreeFrame (mapDecWrap c2witSt.mapcounts 0) = some 1 ∧
    (∃ st', handle_page_fault c2witSt 0 RW_WRITE = some (true, st') ∧
      state_pte_at st' 0
        = some { valid := true, writable := true, priv := true, pfn := 1 } ∧
      st'.mapcounts 1 = 1 ∧ st'.mapcounts 0 = 1) := by
  obtain ⟨st', h1, h2, h3, h4, _h5, _h6, _h7, _h8, _h9, _h10, _h11⟩ :=
    C2_cow_write_fault c2witSt cowFrame0Pt
      ⟨fun j => if j = 0 then ⟨true, false, true, 0⟩ else Pte.zero⟩
      0 2 1 ⟨true, false, true, 0⟩ rfl rfl rfl rfl rfl rfl (by decide) (by decide)
      (by decide)
  exact ⟨rfl, by decide, st', h1, h2, h3, h4 (by decide)⟩

/-- C1: contrary to the claim, after a fork the child's PTEs are not
guaranteed non-writable: the fork loop (pa3.c:313-321) never assigns
the child PTE's `writable` field, so it keeps whatever the malloc'd
directory's uninitialized memory held (and the child's outer slots
where the parent has no directory are never initialized at all,
pa3.c:298).  With malloc memory whose writable bit is set, forking a
process that has one valid writable PTE (vpn 0 → frame 0) yields a
child PTE that is valid, private AND writable while the frame is now
shared (count 2) — the child could write the shared frame without ever
faulting.  The parent-side marking does happen: the enqueued parent's
PTE ends private and non-writable.  This theorem evaluates the fork at
that failing input. -/
theorem C1_fork_child_writable_uninitialized :
    pte_at w1st.current.pagetable 0 = some ⟨true, true, false, 0⟩ ∧
    (switch_process garbageEnv w1st 2).current.pid = 2 ∧
    pte_at (switch_process garbageEnv w1st 2).current.pagetable 0
      = some ⟨true, true, true, 0⟩ ∧
    (∃ pr l, (switch_process garbageEnv w1st 2).processes = pr :: l ∧
      pte_at pr.pagetable 0 = some ⟨true, false, true, 0⟩) ∧
    (switch_process garbageEnv w1st 2).mapcounts 0 = 2 := by
  refine ⟨by decide, by decide, by decide, ⟨_, _, rfl, by decide⟩, by decide⟩

/-- C10: because the running process is never in the ready queue,
switch_process called with the current process's own pid takes the fork
path — whatever the malloc'd memory `g` contains: the new current
process bears that pid but owns a fresh COW-duplicated page table, the
old current process (COW-protected) is pushed into the ready queue, and
ptbr is rebound to the duplicate — the call is neither a no-op nor a
resume. -/
theorem C10_switch_to_own_pid_forks (g : MallocEnv) (st : MachineState)
    (hpid : ∀ p ∈ st.processes, p.pid ≠ st.current.pid) :
    (switch_process g st st.current.pid).current.pid = st.current.pid ∧
    (switch_process g st st.current.pid).current.pagetable
      = fork_child_pagetable g st.current.pagetable ∧
    (switch_process g st st.current.pid).ptbr
      = some (fork_child_pagetable g st.current.pagetable) ∧
    (switch_process g st st.current.pid).processes
      = { st.current with pagetable := cow_protect st.current.pagetable } :: st.processes := by
  have hfind : st.processes.find? (fun p => p.pid == st.current.pid) = none := by
    apply List.find?_eq_none.mpr
    intro x hx
    simpa using hpid x hx
  unfold switch_process
  rw [hfind]
  exact ⟨rfl, rfl, rfl, rfl⟩

/-- C10 witness: in a state whose ready queue is empty, switching to
the current pid (1) forks — even with adversarial malloc garbage: the
duplicate with pid 1 becomes current and the old process is
enqueued. -/
theorem C10_witness :
    (∀ p ∈ w1st.processes, p.pid ≠ w1st.current.pid) ∧
    (switch_process garbageEnv w1st w1st.current.pid).current.pid = w1st.current.pid ∧
    (switch_process garbageEnv w1st w1st.current.pid).current.pagetable
      = fork_child_pagetable garbageEnv w1st.current.pagetable ∧
    (switch_process garbageEnv w1st w1st.current.pid).processes
      = { w1st.current with pagetable := cow_protect w1st.current.pagetable } ::
          w1st.processes := by
  have hp : ∀ p ∈ w1st.processes, p.pid ≠ w1st.current.pid := by simp [w1st]
  exact ⟨hp, (C10_switch_to_own_pid_forks garbageEnv w1st hp).1,
    (C10_switch_to_own_pid_forks garbageEnv w1st hp).2.1,
    (C10_switch_to_own_pid_forks garbageEnv w1st hp).2.2.2⟩
